import Mathlib

/-!
# terraform-provider-hcso: VPC routes data source and Workspace service check

A shallow embedding of

* `internal/services/vpc/data_source_huaweicloud_vpc_routes.go`
  (`dataSourceVpcRoutesRead`, `ListVpcRoutes`, `listVpcRoutesToSchema`), and
* `getServiceFunc` of
  `internal/services/acceptance/workspace/resource_huaweicloud_workspace_service_test.go`.

Go values of type `any` and `gjson` results are JSON trees; Go errors are the
type `Err`.  What the functions obtain from collaborators that are not part of
these two files (the HTTP client, the UUID generator, the schema writer behind
`d.Set`, `services.Get`) is passed in explicitly.
-/

set_option autoImplicit false

namespace Hcso

/-! ## Go errors -/

/-- Go `error` values that occur in the two files. -/
inductive Err where
  /-- An error of a collaborator, identified by its message. -/
  | text (s : String)
  /-- The type `golangsdk.ErrDefault404`; `ErrDefault404{}` has an empty detail. -/
  | errDefault404 (detail : String)
  /-- The value `fmt.Errorf(format, arg)` for a format with one `%s`. -/
  | errorf (format : String) (arg : Err)
  /-- The type `*multierror.Error` with its `Errors` slice. -/
  | multi (errs : List Err)

/-- Whether an error is of type `golangsdk.ErrDefault404` (the not-found class). -/
def Err.isNotFound : Err → Bool
  | Err.errDefault404 _ => true
  | _ => false

/-! ## `getServiceFunc` -/

/-- The type `services.Service`, reduced to the field the function reads and
an identifier standing for the rest of the record. -/
structure Service where
  Status : String
  rest : String
deriving DecidableEq

/-- A service client handle. -/
structure ServiceClient where
  name : String
deriving DecidableEq

/-- How a call of `getServiceFunc` ends: it returns its pair of results, or
the field access `resp.Status` meets a nil pointer. -/
inductive GetServiceOutcome where
  | returned (record : Option Service) (err : Option Err)
  | nilDeref

/-- A run of `getServiceFunc`: its outcome and how often `services.Get` was called. -/
structure GetServiceRun where
  outcome : GetServiceOutcome
  getCalls : Nat

/-- The function `getServiceFunc`.  `workspaceV2Client` is the result of
`conf.WorkspaceV2Client(region)`, `servicesGet` the behaviour of
`services.Get` (a pointer that may be nil, and an error that may be nil). -/
def getServiceFunc (workspaceV2Client : Except Err ServiceClient)
    (servicesGet : ServiceClient → Option Service × Option Err) : GetServiceRun :=
  match workspaceV2Client with
  | Except.error err =>
    ⟨GetServiceOutcome.returned none
      (some (Err.errorf "error creating Workspace v2 client: %s" err)), 0⟩
  | Except.ok client =>
    match servicesGet client with
    | (none, _) => ⟨GetServiceOutcome.nilDeref, 1⟩
    | (some resp, err) =>
      if resp.Status = "CLOSED" then
        ⟨GetServiceOutcome.returned none (some (Err.errDefault404 "")), 1⟩
      else
        ⟨GetServiceOutcome.returned (some resp) err, 1⟩

/-! ## JSON values -/

/-- JSON trees.  They stand for `gjson` results and for the Go values that
`Result.Value()` produces from them: `nil` is `null`, a slice is `arr`, a
`map[string]any` is `obj`.  A number of a JSON text is `num` with its literal;
`float64` occurs in Go values only. -/
inductive Json where
  | null
  | bool (b : Bool)
  /-- A number of a JSON text, by its literal. -/
  | num (literal : String)
  /-- The Go value of type `float64` that parsing the literal yields.  Two
  literals may denote the same `float64`; no theorem tells two of them apart. -/
  | float64 (literal : String)
  | str (s : String)
  | arr (items : List Json)
  | obj (fields : List (String × Json))

mutual
/-- The Go value of a JSON tree: every number becomes a `float64`, the rest
keeps its shape. -/
def Json.toGo : Json → Json
  | Json.num literal => Json.float64 literal
  | Json.arr items => Json.arr (toGoList items)
  | Json.obj fields => Json.obj (toGoFields fields)
  | j => j
/-- The Go values of the elements of an array. -/
def toGoList : List Json → List Json
  | [] => []
  | j :: js => j.toGo :: toGoList js
/-- The Go values of the members of an object. -/
def toGoFields : List (String × Json) → List (String × Json)
  | [] => []
  | (k, j) :: rest => (k, j.toGo) :: toGoFields rest
end

mutual
/-- Whether two values are the same; numbers are compared by their literals. -/
def Json.same : Json → Json → Bool
  | Json.null, Json.null => true
  | Json.bool a, Json.bool b => a == b
  | Json.num a, Json.num b => a == b
  | Json.float64 a, Json.float64 b => a == b
  | Json.str a, Json.str b => a == b
  | Json.arr a, Json.arr b => sameList a b
  | Json.obj a, Json.obj b => sameFields a b
  | _, _ => false
/-- Whether two arrays hold the same values. -/
def sameList : List Json → List Json → Bool
  | [], [] => true
  | a :: as, b :: bs => a.same b && sameList as bs
  | _, _ => false
/-- Whether two objects hold the same members. -/
def sameFields : List (String × Json) → List (String × Json) → Bool
  | [], [] => true
  | (k, a) :: as, (l, b) :: bs => k == l && a.same b && sameFields as bs
  | _, _ => false
end

/-- The first value stored under `key` in a list of object members. -/
def lookupField (key : String) : List (String × Json) → Option Json
  | [] => none
  | (k, v) :: rest => if k = key then some v else lookupField key rest

/-- The method `gjson.Result.Get` for a plain member name: `none` is a result
that does not exist. -/
def Get (r : Option Json) (key : String) : Option Json :=
  match r with
  | some (Json.obj fields) => lookupField key fields
  | _ => none

/-- The method `gjson.Result.Value`: a result that does not exist, and
`null`, have the value `nil`; a number has a `float64`, a string a `string`,
`true` and `false` a `bool`, an array a slice and an object a map of the
values of their parts. -/
def Value (r : Option Json) : Json :=
  match r with
  | some j => j.toGo
  | none => Json.null

/-- The method `gjson.Result.Array`: the elements of an array; no element for
`null` and for a result that does not exist; for any other value, that value
alone. -/
def ResultArray (r : Option Json) : List Json :=
  match r with
  | none => []
  | some Json.null => []
  | some (Json.arr items) => items
  | some j => [j]

/-- Whether a Go value is `nil`. -/
def Json.isNil : Json → Bool
  | Json.null => true
  | _ => false

/-- The names of the members of a `map[string]any`. -/
def Json.keys : Json → List String
  | Json.obj fields => fields.map Prod.fst
  | _ => []

/-! ## Resource data, configuration and collaborators -/

/-- One call made on the `*schema.ResourceData`. -/
inductive Call where
  /-- The call `d.SetId(id)`. -/
  | setId (id : String)
  /-- The call `d.Set(key, value)` and the error it returned. -/
  | set (key : String) (value : Json) (err : Option Err)

/-- The `*schema.ResourceData` of the data source: the configured attributes
the read consults, and the calls that have written to it, oldest first. -/
structure ResourceData where
  region : String
  type : String
  vpc_id : String
  destination : String
  calls : List Call

/-- The method `schema.ResourceData.Get` on the string attributes of the
schema; an attribute that is not configured reads as the empty string. -/
def ResourceData.rawGet (d : ResourceData) (key : String) : String :=
  if key = "region" then d.region
  else if key = "type" then d.type
  else if key = "vpc_id" then d.vpc_id
  else if key = "destination" then d.destination
  else ""

/-- The pagination settings given to `MarkerPager`. -/
structure MarkerPagerArgs where
  dataPath : String
  nextExp : String
  markerKey : String
deriving DecidableEq

/-- The request that the `httphelper` builder chain describes. -/
structure HttpCall where
  method : String
  uri : String
  query : List (String × Json)
  pager : MarkerPagerArgs

/-- What the read obtains from outside the file. -/
structure Env where
  /-- The field `Config.Region`, the provider-level region. -/
  Region : String
  /-- The result of `w.NewClient(w.Config, service)`. -/
  newClient : String → Except Err ServiceClient
  /-- The result of `httphelper.New(client)...Request().Result()` for a call. -/
  result : ServiceClient → HttpCall → Except Err Json
  /-- The result of `uuid.GenerateUUID()`. -/
  generateUUID : Except Err String
  /-- The schema writer behind `d.Set`: the message of the error it reports
  for a key and a value, if any.  It reports plain errors. -/
  setErr : String → Json → Option String

/-- The method `Config.GetRegion`: the `region` attribute when it is set,
otherwise the provider-level region. -/
def GetRegion (env : Env) (d : ResourceData) : String :=
  if d.rawGet "region" = "" then env.Region else d.rawGet "region"

/-- The method `d.SetId`. -/
def ResourceData.SetId (d : ResourceData) (id : String) : ResourceData :=
  ⟨d.region, d.type, d.vpc_id, d.destination, d.calls ++ [Call.setId id]⟩

/-- The method `d.Set`: the error of the schema writer, and the resource data
with the call recorded. -/
def ResourceData.Set (env : Env) (d : ResourceData) (key : String) (value : Json) :
    Option Err × ResourceData :=
  let err := (env.setErr key value).map Err.text
  (err, ⟨d.region, d.type, d.vpc_id, d.destination, d.calls ++ [Call.set key value err]⟩)

/-- Modelled from the spec: the method `ResourceDataWrapper.Get` of
`internal/helper/schemas` is not among the source files.  A query filter maps a
field name to an optional scalar value: an absent or empty attribute is `nil`,
any other attribute is its value. -/
def ResourceDataWrapper.Get (d : ResourceData) (key : String) : Json :=
  if d.rawGet key = "" then Json.null else Json.str (d.rawGet key)

/-- Modelled from the spec: `utils.RemoveNil` is not among the source files.
Nil-removal: the entries whose value is `nil` are stripped from the mapping,
the others are kept as they are. -/
def RemoveNil (params : List (String × Json)) : List (String × Json) :=
  params.filter (fun kv => !kv.2.isNil)

/-! ## `ListVpcRoutes` -/

/-- The request built in `ListVpcRoutes`: method, URI, the filtered query
parameters and the marker pager. -/
def ListVpcRoutesCall (d : ResourceData) : HttpCall :=
  ⟨"GET", "/v2.0/vpc/routes",
    RemoveNil [("type", ResourceDataWrapper.Get d "type"),
      ("vpc_id", ResourceDataWrapper.Get d "vpc_id"),
      ("destination", ResourceDataWrapper.Get d "destination")],
    ⟨"routes", "routes[*].id | [-1]", "marker"⟩⟩

/-- The method `RoutesDSWrapper.ListVpcRoutes`. -/
def ListVpcRoutes (env : Env) (d : ResourceData) : Except Err Json :=
  match env.newClient "vpc" with
  | Except.error err => Except.error err
  | Except.ok client => env.result client (ListVpcRoutesCall d)

/-! ## `listVpcRoutesToSchema` -/

/-- The function literal of `listVpcRoutesToSchema` that maps one route to a row. -/
def routeToRow (route : Option Json) : Json :=
  Json.obj [("id", Value (Get route "id")),
    ("type", Value (Get route "type")),
    ("vpc_id", Value (Get route "vpc_id")),
    ("destination", Value (Get route "destination")),
    ("nexthop", Value (Get route "nexthop"))]

/-- Modelled from the spec: `schemas.SliceToList` of `internal/helper/schemas`
is not among the source files.  One row per result record, in the order
received; the records of a result are the elements that `Result.Array` gives.
Its use in `listVpcRoutesToSchema` shows a single result and no error. -/
def SliceToList (result : Option Json) (fn : Option Json → Json) : List Json :=
  (ResultArray result).map (fun r => fn (some r))

/-- The errors an argument of `multierror.Append` contributes: none for
`nil`, the members of a `*multierror.Error`, the error itself otherwise. -/
def flattenErr : Option Err → List Err
  | none => []
  | some (Err.multi errs) => errs
  | some e => [e]

/-- The function `multierror.Append`, as the `Errors` slice of its result. -/
def multierrorAppend (err : Option Err) (errs : List (Option Err)) : List Err :=
  match err with
  | some (Err.multi es) => es ++ (errs.map flattenErr).flatten
  | some e => (((some e) :: errs).map flattenErr).flatten
  | none => (errs.map flattenErr).flatten

/-- The method `(*multierror.Error).ErrorOrNil`. -/
def ErrorOrNil (errs : List Err) : Option Err :=
  if errs.isEmpty then none else some (Err.multi errs)

/-- The method `RoutesDSWrapper.listVpcRoutesToSchema`: both arguments of
`multierror.Append` are evaluated, in order, before it is called. -/
def listVpcRoutesToSchema (env : Env) (d : ResourceData) (body : Json) :
    Option Err × ResourceData :=
  let r1 := d.Set env "region" (Json.str (GetRegion env d))
  let r2 := r1.2.Set env "routes" (Json.arr (SliceToList (Get (some body) "routes") routeToRow))
  (ErrorOrNil (multierrorAppend none [r1.1, r2.1]), r2.2)

/-! ## `dataSourceVpcRoutesRead` -/

/-- The function `diag.FromErr`: one diagnostic carrying the error. -/
def FromErr (err : Err) : List Err := [err]

/-- The function `dataSourceVpcRoutesRead`: its diagnostics (`nil` is the
empty list) and the resource data after the call. -/
def dataSourceVpcRoutesRead (env : Env) (d : ResourceData) : List Err × ResourceData :=
  match ListVpcRoutes env d with
  | Except.error err => (FromErr err, d)
  | Except.ok lisVpcRouRst =>
    match env.generateUUID with
    | Except.error err => (FromErr err, d)
    | Except.ok id =>
      match listVpcRoutesToSchema env (d.SetId id) lisVpcRouRst with
      | (some err, d2) => (FromErr err, d2)
      | (none, d2) => ([], d2)

/-! ## Marker pagination -/

/-- A single HTTP request as it reaches the server. -/
structure Request where
  method : String
  uri : String
  query : List (String × Json)

/-- Modelled from the spec: part of the marker pager, which is not among the
source files.  Binding a query parameter: an earlier binding of the key is
replaced. -/
def setParam (key : String) (value : Json) (query : List (String × Json)) :
    List (String × Json) :=
  query.filter (fun kv => kv.1 != key) ++ [(key, value)]

/-- Modelled from the spec: part of the marker pager, which is not among the
source files.  The request for one page carries the filter of the call, and
the cursor under the marker parameter when there is one. -/
def pageRequest (call : HttpCall) (marker : Option Json) : Request :=
  match marker with
  | none => ⟨call.method, call.uri, call.query⟩
  | some m => ⟨call.method, call.uri, setParam call.pager.markerKey m call.query⟩

/-- Modelled from the spec: part of the marker pager, which is not among the
source files.  The value of the projection `field[*].sub` is the member `sub`
of every element of the array `field` that has one which is not null, in order. -/
def projectField (field sub : String) (page : Json) : List Json :=
  match Get (some page) field with
  | some (Json.arr items) =>
    items.filterMap (fun item =>
      match Get (some item) sub with
      | some v => if v.isNil then none else some v
      | none => none)
  | _ => []

/-- Modelled from the spec: part of the marker pager, which is not among the
source files.  The cursor expression evaluated on a page; only the expression
that `ListVpcRoutes` passes is interpreted: `routes[*].id | [-1]` is the last
of the ids of the routes. -/
def PathSearch (expression : String) (page : Json) : Option Json :=
  if expression = "routes[*].id | [-1]" then (projectField "routes" "id" page).getLast?
  else none

/-- Modelled from the spec: part of the marker pager, which is not among the
source files.  Whether a cursor value is present and not empty. -/
def cursorNonEmpty : Option Json → Bool
  | none => false
  | some Json.null => false
  | some (Json.str s) => s != ""
  | some _ => true

/-- Modelled from the spec: part of the marker pager, which is not among the
source files.  The array field of a page, when the page has one. -/
def pageItems (dataPath : String) (page : Json) : Option (List Json) :=
  match Get (some page) dataPath with
  | some (Json.arr items) => some items
  | _ => none

/-- Modelled from the spec: part of the marker pager, which is not among the
source files.  Whether a cursor repeats one of the cursors seen before. -/
def cursorSeen (cursor : Json) (markers : List Json) : Bool :=
  markers.any (fun m => m.same cursor)

/-- A run of the pager: the requests issued, oldest first, and the result;
`none` when the run has not finished within the allotted number of requests. -/
structure MarkerPagerRun where
  requests : List Request
  result : Option (Except Err Json)

/-- Modelled from the spec: the marker pager of `internal/helper/httphelper` is
not among the source files.  The first request carries the filter and no
cursor.  The array field of the page is extracted; a page without one is an
error, a page with no items ends the pagination.  The items are merged onto
the accumulated result, and when the cursor expression yields a non-empty
value on the page a follow-up request is issued with that value under the
marker parameter; a cursor that is empty or absent, and a cursor that repeats
one seen before, end the pagination.  `send n req` is the answer of the server
to `req` when `n` requests were issued before it; `markers` holds the cursors
seen so far, the latest first, and the latest is the one submitted; `fuel`
bounds the number of requests. -/
def markerPagerLoop (send : Nat → Request → Except Err Json) (call : HttpCall) :
    Nat → List Request → List Json → List Json → MarkerPagerRun
  | 0, sent, _, _ => ⟨sent, none⟩
  | fuel + 1, sent, markers, acc =>
    match send sent.length (pageRequest call markers.head?) with
    | Except.error err => ⟨sent ++ [pageRequest call markers.head?], some (Except.error err)⟩
    | Except.ok page =>
      match pageItems call.pager.dataPath page with
      | none =>
        ⟨sent ++ [pageRequest call markers.head?],
          some (Except.error (Err.text "malformed response"))⟩
      | some [] =>
        ⟨sent ++ [pageRequest call markers.head?],
          some (Except.ok (Json.obj [(call.pager.dataPath, Json.arr acc)]))⟩
      | some items =>
        match PathSearch call.pager.nextExp page with
        | none =>
          ⟨sent ++ [pageRequest call markers.head?],
            some (Except.ok (Json.obj [(call.pager.dataPath, Json.arr (acc ++ items))]))⟩
        | some cursor =>
          if cursorNonEmpty (some cursor) && !cursorSeen cursor markers then
            markerPagerLoop send call fuel (sent ++ [pageRequest call markers.head?])
              (cursor :: markers) (acc ++ items)
          else
            ⟨sent ++ [pageRequest call markers.head?],
              some (Except.ok (Json.obj [(call.pager.dataPath, Json.arr (acc ++ items))]))⟩

/-- Modelled from the spec: the marker pager is not among the source files.
The paginated request of a call starts with no cursor seen and nothing
accumulated. -/
def markerPager (send : Nat → Request → Except Err Json) (call : HttpCall) (fuel : Nat) :
    MarkerPagerRun :=
  markerPagerLoop send call fuel [] [] []

/-! ## Sample data -/

/-- A route record with the given id. -/
def routeWithId (id : String) : Json :=
  Json.obj [("id", Json.str id), ("type", Json.str "peering")]

/-- A page whose routes have the given ids. -/
def pageOfIds (ids : List String) : Json :=
  Json.obj [("routes", Json.arr (ids.map routeWithId))]

/-- A server that answers request `n` with the `n`-th of the given pages, and
with a page without routes once they are used up. -/
def scriptedServer (pages : List Json) (n : Nat) (_ : Request) : Except Err Json :=
  Except.ok (pages.getD n (pageOfIds []))

/-- A server whose every page holds one route with the id `m`, whatever marker is sent. -/
def staleServer (m : String) (_ : Nat) (_ : Request) : Except Err Json :=
  Except.ok (pageOfIds [m])

/-- Whether a value fits a string attribute: a string, or `nil`. -/
def fitsString : Json → Bool
  | Json.str _ => true
  | Json.null => true
  | _ => false

/-- Whether a value fits an element of the `routes` attribute of the schema. -/
def fitsRoute : Json → Bool
  | Json.obj fields => fields.all (fun kv => fitsString kv.2)
  | _ => false

/-- A schema writer for the attributes that `DataSourceVpcRoutes` declares:
`region` is a string, `routes` a list of maps of strings. -/
def schemaSetErr (key : String) (value : Json) : Option String :=
  if key = "region" then
    if fitsString value then none else some "region: expected type string"
  else if key = "routes" then
    match value with
    | Json.arr rows => if rows.all fitsRoute then none else some "routes: expected type string"
    | Json.null => none
    | _ => some "routes: source data must be an array or slice"
  else some "Invalid address to set"

/-- A schema writer that rejects every write. -/
def rejectingSetErr (key : String) (_ : Json) : Option String :=
  some (key ++ ": rejected")

/-- A resource data with only `vpc_id` configured and nothing written. -/
def sampleData : ResourceData := ⟨"", "", "v1", "", []⟩

/-- An environment whose list request answers with the given result. -/
def sampleEnv (answer : Except Err Json) : Env :=
  ⟨"region-1", fun name => Except.ok ⟨name⟩, fun _ _ => answer, Except.ok "uuid-1", schemaSetErr⟩

/-- An environment in which no client can be created. -/
def noClientEnv : Env :=
  ⟨"region-1", fun _ => Except.error (Err.text "no endpoint"), fun _ _ => Except.ok Json.null,
    Except.ok "uuid-1", schemaSetErr⟩

/-- An environment whose schema writer rejects every write. -/
def rejectingEnv : Env :=
  ⟨"region-1", fun name => Except.ok ⟨name⟩, fun _ _ => Except.ok (pageOfIds ["a"]),
    Except.ok "uuid-1", rejectingSetErr⟩

/-! ## Theorems: `getServiceFunc` -/

/-- C1: when `services.Get` returns a response whose `Status` is "CLOSED",
with any error or none, `getServiceFunc` returns a nil record together with
`golangsdk.ErrDefault404{}`, a not-found error, and not the fetched record. -/
theorem getServiceFunc_closed_is_not_found (client : ServiceClient)
    (servicesGet : ServiceClient → Option Service × Option Err)
    (resp : Service) (err : Option Err)
    (hget : servicesGet client = (some resp, err)) (hclosed : resp.Status = "CLOSED") :
    (getServiceFunc (Except.ok client) servicesGet).outcome
        = GetServiceOutcome.returned none (some (Err.errDefault404 "")) ∧
      (Err.errDefault404 "").isNotFound = true := by
  refine ⟨?_, rfl⟩
  simp [getServiceFunc, hget, hclosed]

/-- C1, at a concrete input: a closed service that came with an error. -/
theorem getServiceFunc_closed_is_not_found_witness :
    (getServiceFunc (Except.ok ⟨"workspace"⟩)
        (fun _ => (some ⟨"CLOSED", "svc"⟩, some (Err.text "boom")))).outcome
        = GetServiceOutcome.returned none (some (Err.errDefault404 "")) ∧
      (Err.errDefault404 "").isNotFound = true :=
  getServiceFunc_closed_is_not_found ⟨"workspace"⟩
    (fun _ => (some ⟨"CLOSED", "svc"⟩, some (Err.text "boom")))
    ⟨"CLOSED", "svc"⟩ (some (Err.text "boom")) rfl rfl

/-- C10: when the status of the response is not "CLOSED", `getServiceFunc`
returns the fetched record and the error of `services.Get` unchanged, so that
a 404 of the API is returned as a not-found error and a successful get as the
record with a nil error; when the client cannot be created it returns a nil
record with an error and `services.Get` is not called. -/
theorem getServiceFunc_passes_get_result
    (servicesGet : ServiceClient → Option Service × Option Err) :
    (∀ client resp err, servicesGet client = (some resp, err) → resp.Status ≠ "CLOSED" →
      getServiceFunc (Except.ok client) servicesGet
        = ⟨GetServiceOutcome.returned (some resp) err, 1⟩) ∧
    (∀ client resp detail, servicesGet client = (some resp, some (Err.errDefault404 detail)) →
      resp.Status ≠ "CLOSED" →
      ∃ e, (getServiceFunc (Except.ok client) servicesGet).outcome
          = GetServiceOutcome.returned (some resp) (some e) ∧ e.isNotFound = true) ∧
    (∀ client resp, servicesGet client = (some resp, none) → resp.Status ≠ "CLOSED" →
      (getServiceFunc (Except.ok client) servicesGet).outcome
        = GetServiceOutcome.returned (some resp) none) ∧
    (∀ cause, getServiceFunc (Except.error cause) servicesGet
        = ⟨GetServiceOutcome.returned none
            (some (Err.errorf "error creating Workspace v2 client: %s" cause)), 0⟩) := by
  have key : ∀ client resp err, servicesGet client = (some resp, err) →
      resp.Status ≠ "CLOSED" →
      getServiceFunc (Except.ok client) servicesGet
        = ⟨GetServiceOutcome.returned (some resp) err, 1⟩ := by
    intro client resp err hget hstatus
    simp [getServiceFunc, hget, hstatus]
  refine ⟨key, ?_, ?_, ?_⟩
  · intro client resp detail hget hstatus
    exact ⟨Err.errDefault404 detail, by rw [key client resp _ hget hstatus], rfl⟩
  · intro client resp hget hstatus
    rw [key client resp _ hget hstatus]
  · intro cause
    rfl

/-- C10, at a concrete input: an available service whose get reports a 404. -/
theorem getServiceFunc_passes_get_result_witness :
    getServiceFunc (Except.ok ⟨"workspace"⟩)
        (fun _ => (some ⟨"AVAILABLE", "svc"⟩, some (Err.errDefault404 "gone")))
      = ⟨GetServiceOutcome.returned (some ⟨"AVAILABLE", "svc"⟩)
          (some (Err.errDefault404 "gone")), 1⟩ :=
  (getServiceFunc_passes_get_result
    (fun _ => (some ⟨"AVAILABLE", "svc"⟩, some (Err.errDefault404 "gone")))).1
    ⟨"workspace"⟩ ⟨"AVAILABLE", "svc"⟩ (some (Err.errDefault404 "gone")) rfl (by decide)

/-! ## Theorems: the query of `ListVpcRoutes` -/

/-- C2: the query parameters of the request built by `ListVpcRoutes` are
exactly the attributes among `type`, `vpc_id` and `destination` whose value is
not empty, each with its value; with only `vpc_id` set to "v1" the single
parameter is `vpc_id=v1`.  The request is handed to the client with them. -/
theorem ListVpcRoutes_query_omits_empty (d : ResourceData) :
    (ListVpcRoutesCall d).query
        = ((["type", "vpc_id", "destination"].filter (fun k => d.rawGet k != "")).map
            (fun k => (k, Json.str (d.rawGet k)))) ∧
      (∀ region calls, (ListVpcRoutesCall ⟨region, "", "v1", "", calls⟩).query
        = [("vpc_id", Json.str "v1")]) ∧
      (∀ env client, env.newClient "vpc" = Except.ok client →
        ListVpcRoutes env d = env.result client (ListVpcRoutesCall d)) := by
  refine ⟨?_, ?_, ?_⟩
  · by_cases h1 : d.type = "" <;> by_cases h2 : d.vpc_id = "" <;>
      by_cases h3 : d.destination = "" <;>
      simp [ListVpcRoutesCall, RemoveNil, ResourceDataWrapper.Get, ResourceData.rawGet,
        Json.isNil, h1, h2, h3]
  · intro region calls
    rfl
  · intro env client hclient
    simp [ListVpcRoutes, hclient]

/-- C2, at a concrete input: only `vpc_id` is configured, with the value "v1". -/
theorem ListVpcRoutes_query_omits_empty_witness :
    (ListVpcRoutesCall ⟨"", "", "v1", "", []⟩).query = [("vpc_id", Json.str "v1")] ∧
      ListVpcRoutes (sampleEnv (Except.ok (pageOfIds []))) sampleData
        = (sampleEnv (Except.ok (pageOfIds []))).result ⟨"vpc"⟩ (ListVpcRoutesCall sampleData) :=
  ⟨(ListVpcRoutes_query_omits_empty sampleData).2.1 "" [],
    (ListVpcRoutes_query_omits_empty sampleData).2.2 (sampleEnv (Except.ok (pageOfIds [])))
      ⟨"vpc"⟩ rfl⟩

/-! ## Theorems: flattening the routes -/

/-- The calls that `listVpcRoutesToSchema` makes on the resource data. -/
lemma listVpcRoutesToSchema_calls (env : Env) (d : ResourceData) (body : Json) :
    (listVpcRoutesToSchema env d body).2.calls
      = d.calls ++
        [Call.set "region" (Json.str (GetRegion env d))
            ((env.setErr "region" (Json.str (GetRegion env d))).map Err.text),
          Call.set "routes" (Json.arr (SliceToList (Get (some body) "routes") routeToRow))
            ((env.setErr "routes"
              (Json.arr (SliceToList (Get (some body) "routes") routeToRow))).map Err.text)] := by
  simp [listVpcRoutesToSchema, ResourceData.Set]

/-- The member of the row of a record under one of the five keys is the Go
value of the field of the record. -/
lemma routeToRow_get (route : Option Json) (key : String)
    (hkey : key ∈ ["id", "type", "vpc_id", "destination", "nexthop"]) :
    Get (some (routeToRow route)) key = some (Value (Get route key)) := by
  simp only [List.mem_cons, List.mem_singleton, List.not_mem_nil, or_false] at hkey
  rcases hkey with h | h | h | h | h <;> subst h <;>
    simp [routeToRow, Get, lookupField]

/-- C3: for a body whose `routes` field is an array of records, the value
given to the write of `routes` is a list with one row per record, in the order
of the response, and row `i` has the five keys id, type, vpc_id, destination
and nexthop with the fields of record `i`: a string or boolean field as it is,
a number as its `float64`, nil for `null` and for a field the record lacks.
No record is dropped or repeated. -/
theorem listVpcRoutesToSchema_rows_follow_records (env : Env) (d : ResourceData) (body : Json)
    (records : List Json) (hroutes : Get (some body) "routes" = some (Json.arr records)) :
    ∃ rows : List Json,
      (listVpcRoutesToSchema env d body).2.calls
        = d.calls ++
          [Call.set "region" (Json.str (GetRegion env d))
              ((env.setErr "region" (Json.str (GetRegion env d))).map Err.text),
            Call.set "routes" (Json.arr rows)
              ((env.setErr "routes" (Json.arr rows)).map Err.text)] ∧
      rows.length = records.length ∧
      ∀ (i : Nat) (record : Json), records[i]? = some record →
        ∃ row, rows[i]? = some row ∧
          row.keys = ["id", "type", "vpc_id", "destination", "nexthop"] ∧
          ∀ key ∈ ["id", "type", "vpc_id", "destination", "nexthop"],
            (∀ s, Get (some record) key = some (Json.str s) →
              Get (some row) key = some (Json.str s)) ∧
            (∀ b, Get (some record) key = some (Json.bool b) →
              Get (some row) key = some (Json.bool b)) ∧
            (∀ l, Get (some record) key = some (Json.num l) →
              Get (some row) key = some (Json.float64 l)) ∧
            (Get (some record) key = some Json.null →
              Get (some row) key = some Json.null) ∧
            (Get (some record) key = none → Get (some row) key = some Json.null) ∧
            (∀ v, Get (some record) key = some v → Get (some row) key = some v.toGo) := by
  refine ⟨records.map (fun r => routeToRow (some r)), ?_, ?_, ?_⟩
  · rw [listVpcRoutesToSchema_calls, hroutes]
    rfl
  · simp
  · intro i record hi
    refine ⟨routeToRow (some record), by simp [List.getElem?_map, hi], rfl, ?_⟩
    intro key hkey
    have hrow := routeToRow_get (some record) key hkey
    refine ⟨?_, ?_, ?_, ?_, ?_, ?_⟩
    · intro s h
      rw [hrow, h]
      rfl
    · intro b h
      rw [hrow, h]
      rfl
    · intro l h
      rw [hrow, h]
      rfl
    · intro h
      rw [hrow, h]
      rfl
    · intro h
      rw [hrow, h]
      rfl
    · intro v h
      rw [hrow, h]
      rfl

/-- C3, at a concrete input: a body with the routes `a` and `b`; the rows
hold the ids "a" and "b" in that order, and nil for the nexthop they lack. -/
theorem listVpcRoutesToSchema_rows_follow_records_witness :
    ∃ rows : List Json,
      (listVpcRoutesToSchema (sampleEnv (Except.ok Json.null)) sampleData
          (pageOfIds ["a", "b"])).2.calls
        = [Call.set "region" (Json.str "region-1") none,
            Call.set "routes" (Json.arr rows)
              ((schemaSetErr "routes" (Json.arr rows)).map Err.text)] ∧
      rows.length = 2 ∧
      ∃ row0 row1, rows[0]? = some row0 ∧ rows[1]? = some row1 ∧
        Get (some row0) "id" = some (Json.str "a") ∧
        Get (some row0) "type" = some (Json.str "peering") ∧
        Get (some row0) "nexthop" = some Json.null ∧
        Get (some row1) "id" = some (Json.str "b") := by
  obtain ⟨rows, hcalls, hlen, hrows⟩ :=
    listVpcRoutesToSchema_rows_follow_records (sampleEnv (Except.ok Json.null)) sampleData
      (pageOfIds ["a", "b"]) [routeWithId "a", routeWithId "b"] rfl
  obtain ⟨row0, h0, _, hf0⟩ := hrows 0 (routeWithId "a") rfl
  obtain ⟨row1, h1, _, hf1⟩ := hrows 1 (routeWithId "b") rfl
  exact ⟨rows, hcalls, hlen, row0, row1, h0, h1,
    (hf0 "id" (by simp)).1 "a" rfl, (hf0 "type" (by simp)).1 "peering" rfl,
    (hf0 "nexthop" (by simp)).2.2.2.2.1 rfl, (hf1 "id" (by simp)).1 "b" rfl⟩

/-- The calls of `listVpcRoutesToSchema` on a body with two routes, one with
a numeric id and a field the schema does not know, evaluated in full. -/
lemma listVpcRoutesToSchema_sample_calls :
    (listVpcRoutesToSchema (sampleEnv (Except.ok Json.null)) sampleData
        (Json.obj [("routes", Json.arr [
          Json.obj [("id", Json.str "r1"), ("destination", Json.str "10.0.0.0/8"),
            ("tenant_id", Json.str "t")],
          Json.obj [("nexthop", Json.str "peer-2"), ("id", Json.num "7")]])])).2.calls
      = [Call.set "region" (Json.str "region-1") none,
          Call.set "routes" (Json.arr [
            Json.obj [("id", Json.str "r1"), ("type", Json.null), ("vpc_id", Json.null),
              ("destination", Json.str "10.0.0.0/8"), ("nexthop", Json.null)],
            Json.obj [("id", Json.float64 "7"), ("type", Json.null), ("vpc_id", Json.null),
              ("destination", Json.null), ("nexthop", Json.str "peer-2")]])
            (some (Err.text "routes: expected type string"))] :=
  rfl

/-- C4: the row of a route has exactly the five keys id, type, vpc_id,
destination and nexthop; a key whose field the record lacks holds `nil`, the
mapping having no error result; and two records that agree on the five fields
have equal rows, whatever else they carry. -/
theorem routeToRow_five_fields (r1 r2 : Option Json)
    (hagree : ∀ key ∈ ["id", "type", "vpc_id", "destination", "nexthop"],
      Get r1 key = Get r2 key) :
    (routeToRow r1).keys = ["id", "type", "vpc_id", "destination", "nexthop"] ∧
      (∀ key ∈ ["id", "type", "vpc_id", "destination", "nexthop"],
        Get r1 key = none → Get (some (routeToRow r1)) key = some Json.null) ∧
      (∀ key ∈ ["id", "type", "vpc_id", "destination", "nexthop"],
        Get (some (routeToRow r1)) key = some (Value (Get r1 key))) ∧
      routeToRow r1 = routeToRow r2 := by
  have hrow : ∀ key ∈ ["id", "type", "vpc_id", "destination", "nexthop"],
      Get (some (routeToRow r1)) key = some (Value (Get r1 key)) := by
    intro key hkey
    simp only [List.mem_cons, List.mem_singleton, List.not_mem_nil, or_false] at hkey
    rcases hkey with h | h | h | h | h <;> subst h <;>
      simp [routeToRow, Get, lookupField]
  refine ⟨rfl, ?_, hrow, ?_⟩
  · intro key hkey hmissing
    rw [hrow key hkey, hmissing]
    rfl
  · simp only [routeToRow]
    rw [hagree "id" (by simp), hagree "type" (by simp), hagree "vpc_id" (by simp),
      hagree "destination" (by simp), hagree "nexthop" (by simp)]

/-- C4, at a concrete input: a record without nexthop and one that also
carries a field the schema does not know. -/
theorem routeToRow_five_fields_witness :
    (routeToRow (some (routeWithId "a"))).keys
        = ["id", "type", "vpc_id", "destination", "nexthop"] ∧
      Get (some (routeToRow (some (routeWithId "a")))) "nexthop" = some Json.null ∧
      routeToRow (some (routeWithId "a"))
        = routeToRow (some (Json.obj [("id", Json.str "a"), ("tenant_id", Json.str "t"),
            ("type", Json.str "peering")])) :=
  have h := routeToRow_five_fields (some (routeWithId "a"))
    (some (Json.obj [("id", Json.str "a"), ("tenant_id", Json.str "t"),
      ("type", Json.str "peering")]))
    (by
      intro key hkey
      simp only [List.mem_cons, List.mem_singleton, List.not_mem_nil, or_false] at hkey
      rcases hkey with h | h | h | h | h <;> subst h <;> rfl)
  ⟨h.1, h.2.1 "nexthop" (by simp) rfl, h.2.2.2⟩

/-- The error that `listVpcRoutesToSchema` returns, from the errors of its two writes. -/
lemma listVpcRoutesToSchema_error (env : Env) (d : ResourceData) (body : Json) :
    (listVpcRoutesToSchema env d body).1
      = ErrorOrNil
          (flattenErr ((env.setErr "region" (Json.str (GetRegion env d))).map Err.text) ++
            flattenErr ((env.setErr "routes"
              (Json.arr (SliceToList (Get (some body) "routes") routeToRow))).map Err.text)) := by
  simp [listVpcRoutesToSchema, ResourceData.Set, multierrorAppend]

/-- C9: `listVpcRoutesToSchema` attempts the write of `region` and then the
write of `routes`, whatever the first one returns; it returns nil exactly when
both writes succeed; and when both fail the returned error holds the two
failures, that of `region` first. -/
theorem listVpcRoutesToSchema_accumulates_errors (env : Env) (d : ResourceData) (body : Json) :
    (listVpcRoutesToSchema env d body).2.calls
        = d.calls ++
          [Call.set "region" (Json.str (GetRegion env d))
              ((env.setErr "region" (Json.str (GetRegion env d))).map Err.text),
            Call.set "routes" (Json.arr (SliceToList (Get (some body) "routes") routeToRow))
              ((env.setErr "routes"
                (Json.arr (SliceToList (Get (some body) "routes") routeToRow))).map Err.text)] ∧
      ((listVpcRoutesToSchema env d body).1 = none ↔
        (env.setErr "region" (Json.str (GetRegion env d)) = none ∧
          env.setErr "routes"
            (Json.arr (SliceToList (Get (some body) "routes") routeToRow)) = none)) ∧
      (∀ m1 m2, env.setErr "region" (Json.str (GetRegion env d)) = some m1 →
        env.setErr "routes"
          (Json.arr (SliceToList (Get (some body) "routes") routeToRow)) = some m2 →
        (listVpcRoutesToSchema env d body).1
          = some (Err.multi [Err.text m1, Err.text m2])) := by
  refine ⟨listVpcRoutesToSchema_calls env d body, ?_, ?_⟩
  · rw [listVpcRoutesToSchema_error]
    cases h1 : env.setErr "region" (Json.str (GetRegion env d)) <;>
      cases h2 : env.setErr "routes"
        (Json.arr (SliceToList (Get (some body) "routes") routeToRow)) <;>
      simp [flattenErr, ErrorOrNil]
  · intro m1 m2 h1 h2
    rw [listVpcRoutesToSchema_error, h1, h2]
    simp [flattenErr, ErrorOrNil]

/-- C9, at a concrete input: a schema writer that rejects both writes. -/
theorem listVpcRoutesToSchema_accumulates_errors_witness :
    (listVpcRoutesToSchema rejectingEnv sampleData (pageOfIds ["a"])).1
      = some (Err.multi [Err.text "region: rejected", Err.text "routes: rejected"]) :=
  (listVpcRoutesToSchema_accumulates_errors rejectingEnv sampleData (pageOfIds ["a"])).2.2
    "region: rejected" "routes: rejected" rfl rfl

/-! ## Theorems: `dataSourceVpcRoutesRead` -/

/-- C8: when `ListVpcRoutes` fails, because no client could be created or
because the list request failed, the read returns the diagnostics of that
error and leaves the resource data as it was: no id, no `region` and no
`routes` is written.  Conversely the resource data changes, and so the id is
set, only when `ListVpcRoutes` has succeeded. -/
theorem dataSourceVpcRoutesRead_list_failure (env : Env) (d : ResourceData) :
    (∀ err, env.newClient "vpc" = Except.error err →
      dataSourceVpcRoutesRead env d = (FromErr err, d)) ∧
    (∀ client err, env.newClient "vpc" = Except.ok client →
      env.result client (ListVpcRoutesCall d) = Except.error err →
      dataSourceVpcRoutesRead env d = (FromErr err, d)) ∧
    (∀ err, ListVpcRoutes env d = Except.error err →
      dataSourceVpcRoutesRead env d = (FromErr err, d)) ∧
    (∀ id, Call.setId id ∈ (dataSourceVpcRoutesRead env d).2.calls →
      Call.setId id ∉ d.calls → ∃ body, ListVpcRoutes env d = Except.ok body) ∧
    ((dataSourceVpcRoutesRead env d).2.calls ≠ d.calls →
      ∃ body, ListVpcRoutes env d = Except.ok body) := by
  have key : ∀ err, ListVpcRoutes env d = Except.error err →
      dataSourceVpcRoutesRead env d = (FromErr err, d) := by
    intro err h
    simp [dataSourceVpcRoutesRead, h]
  have conv : (dataSourceVpcRoutesRead env d).2.calls ≠ d.calls →
      ∃ body, ListVpcRoutes env d = Except.ok body := by
    intro hchanged
    cases h : ListVpcRoutes env d with
    | error err => rw [key err h] at hchanged; exact absurd rfl hchanged
    | ok body => exact ⟨body, rfl⟩
  refine ⟨?_, ?_, key, ?_, conv⟩
  · intro err h
    exact key err (by simp [ListVpcRoutes, h])
  · intro client err hclient h
    exact key err (by simp [ListVpcRoutes, hclient, h])
  · intro id hin hnot
    exact conv (fun heq => hnot (heq ▸ hin))

/-- C8, at a concrete input: no client can be created. -/
theorem dataSourceVpcRoutesRead_list_failure_witness :
    dataSourceVpcRoutesRead noClientEnv sampleData
      = ([Err.text "no endpoint"], sampleData) :=
  (dataSourceVpcRoutesRead_list_failure noClientEnv sampleData).1 (Err.text "no endpoint") rfl

/-! ## Theorems: marker pagination -/

mutual
/-- Every value is the same as itself. -/
theorem Json.same_refl : ∀ j : Json, j.same j = true
  | Json.null => by simp [Json.same]
  | Json.bool _ => by simp [Json.same]
  | Json.num _ => by simp [Json.same]
  | Json.float64 _ => by simp [Json.same]
  | Json.str _ => by simp [Json.same]
  | Json.arr items => by simp [Json.same, sameList_refl items]
  | Json.obj fields => by simp [Json.same, sameFields_refl fields]
/-- Every array holds the same values as itself. -/
theorem sameList_refl : ∀ l : List Json, sameList l l = true
  | [] => by simp [sameList]
  | j :: js => by simp [sameList, Json.same_refl j, sameList_refl js]
/-- Every object holds the same members as itself. -/
theorem sameFields_refl : ∀ l : List (String × Json), sameFields l l = true
  | [] => by simp [sameFields]
  | (k, j) :: rest => by simp [sameFields, Json.same_refl j, sameFields_refl rest]
end

/-- A page whose array of routes is extracted has that array under `routes`. -/
lemma Get_routes_of_pageItems (page : Json) (items : List Json)
    (hitems : pageItems "routes" page = some items) :
    Get (some page) "routes" = some (Json.arr items) := by
  unfold pageItems at hitems
  cases hg : Get (some page) "routes" with
  | none => simp [hg] at hitems
  | some j =>
    cases j with
    | arr found =>
      simp only [hg, Option.some.injEq] at hitems
      rw [hitems]
    | _ => simp [hg] at hitems

/-- A page whose `routes` field is absent or not an array has no array of routes. -/
lemma pageItems_none_of_shape (page : Json)
    (hshape : ∀ records, Get (some page) "routes" ≠ some (Json.arr records)) :
    pageItems "routes" page = none := by
  unfold pageItems
  cases hg : Get (some page) "routes" with
  | none => rfl
  | some j =>
    cases j with
    | arr found => exact absurd hg (hshape found)
    | _ => rfl

/-- The cursor of a page whose last route has a string id is that id. -/
lemma PathSearch_last_id (page : Json) (items : List Json) (lastItem : Json) (id : String)
    (hitems : pageItems "routes" page = some items)
    (hlast : items.getLast? = some lastItem)
    (hid : Get (some lastItem) "id" = some (Json.str id)) :
    PathSearch "routes[*].id | [-1]" page = some (Json.str id) := by
  obtain ⟨init, rfl⟩ := List.getLast?_eq_some_iff.mp hlast
  simp only [PathSearch, if_true, projectField, Get_routes_of_pageItems page _ hitems]
  rw [List.filterMap_append]
  simp [hid, Json.isNil, List.getLast?_concat]

/-- A page on which the cursor expression of `ListVpcRoutes` yields a
non-empty value has an array of routes, and the array has items. -/
lemma pageItems_of_cursor (page : Json)
    (hcursor : cursorNonEmpty (PathSearch "routes[*].id | [-1]" page) = true) :
    ∃ item items, pageItems "routes" page = some (item :: items) := by
  simp only [PathSearch, if_true, projectField, pageItems] at hcursor ⊢
  cases h : Get (some page) "routes" with
  | none => simp [h, cursorNonEmpty] at hcursor
  | some j =>
    cases j with
    | arr items =>
      cases items with
      | nil => simp [h, cursorNonEmpty] at hcursor
      | cons item items => exact ⟨item, items, rfl⟩
    | _ => simp [h, cursorNonEmpty] at hcursor

/-- The first request of `ListVpcRoutes` carries the filter alone. -/
lemma pageRequest_none (d : ResourceData) :
    pageRequest (ListVpcRoutesCall d) none
      = ⟨"GET", "/v2.0/vpc/routes", (ListVpcRoutesCall d).query⟩ := rfl

/-- A follow-up request of `ListVpcRoutes` carries the filter and the cursor
under `marker`. -/
lemma pageRequest_marker (d : ResourceData) (m : Json) :
    pageRequest (ListVpcRoutesCall d) (some m)
      = ⟨"GET", "/v2.0/vpc/routes", (ListVpcRoutesCall d).query ++ [("marker", m)]⟩ := by
  by_cases h1 : d.type = "" <;> by_cases h2 : d.vpc_id = "" <;>
    by_cases h3 : d.destination = "" <;>
    simp [pageRequest, setParam, ListVpcRoutesCall, RemoveNil, ResourceDataWrapper.Get,
      ResourceData.rawGet, Json.isNil, h1, h2, h3]

/-- One step of the pager on a page without an array of routes: an error. -/
lemma markerPagerLoop_malformed (send : Nat → Request → Except Err Json) (d : ResourceData)
    (fuel : Nat) (sent : List Request) (markers : List Json) (acc : List Json) (page : Json)
    (hsend : send sent.length (pageRequest (ListVpcRoutesCall d) markers.head?)
      = Except.ok page)
    (hitems : pageItems "routes" page = none) :
    markerPagerLoop send (ListVpcRoutesCall d) (fuel + 1) sent markers acc
      = ⟨sent ++ [pageRequest (ListVpcRoutesCall d) markers.head?],
          some (Except.error (Err.text "malformed response"))⟩ := by
  have hpath : (ListVpcRoutesCall d).pager.dataPath = "routes" := rfl
  rw [markerPagerLoop, hsend]
  simp only [hpath, hitems]

/-- One step of the pager on a page that has an array of routes and no new
cursor: the items are merged and the pagination ends. -/
lemma markerPagerLoop_stop (send : Nat → Request → Except Err Json) (d : ResourceData)
    (fuel : Nat) (sent : List Request) (markers : List Json) (acc : List Json) (page : Json)
    (items : List Json)
    (hsend : send sent.length (pageRequest (ListVpcRoutesCall d) markers.head?)
      = Except.ok page)
    (hitems : pageItems "routes" page = some items)
    (hcursor : items = [] ∨ ∀ c, PathSearch "routes[*].id | [-1]" page = some c →
      cursorNonEmpty (some c) = false ∨ cursorSeen c markers = true) :
    markerPagerLoop send (ListVpcRoutesCall d) (fuel + 1) sent markers acc
      = ⟨sent ++ [pageRequest (ListVpcRoutesCall d) markers.head?],
          some (Except.ok (Json.obj [("routes", Json.arr (acc ++ items))]))⟩ := by
  have hpath : (ListVpcRoutesCall d).pager.dataPath = "routes" := rfl
  have hexp : (ListVpcRoutesCall d).pager.nextExp = "routes[*].id | [-1]" := rfl
  rw [markerPagerLoop, hsend]
  cases items with
  | nil => simp only [hpath, hitems, List.append_nil]
  | cons item items =>
    have hc : ∀ c, PathSearch "routes[*].id | [-1]" page = some c →
        cursorNonEmpty (some c) = false ∨ cursorSeen c markers = true := by
      rcases hcursor with h | h
      · cases h
      · exact h
    cases hps : PathSearch "routes[*].id | [-1]" page with
    | none => simp only [hpath, hexp, hitems, hps]
    | some c =>
      have hguard : (cursorNonEmpty (some c) && !cursorSeen c markers) = false := by
        rcases hc c hps with h | h <;> simp [h]
      simp only [hpath, hexp, hitems, hps, hguard, Bool.false_eq_true, if_false]

/-- One step of the pager on a page with a non-empty cursor that was not seen
before: the items are merged and the next request carries the cursor. -/
lemma markerPagerLoop_continue (send : Nat → Request → Except Err Json) (d : ResourceData)
    (fuel : Nat) (sent : List Request) (markers : List Json) (acc : List Json) (page : Json)
    (c : Json)
    (hsend : send sent.length (pageRequest (ListVpcRoutesCall d) markers.head?)
      = Except.ok page)
    (hps : PathSearch "routes[*].id | [-1]" page = some c)
    (hne : cursorNonEmpty (some c) = true) (hfresh : cursorSeen c markers = false) :
    markerPagerLoop send (ListVpcRoutesCall d) (fuel + 1) sent markers acc
      = markerPagerLoop send (ListVpcRoutesCall d) fuel
          (sent ++ [pageRequest (ListVpcRoutesCall d) markers.head?]) (c :: markers)
          (acc ++ (pageItems "routes" page).getD []) := by
  obtain ⟨item, items, hitems⟩ := pageItems_of_cursor page (by rw [hps]; exact hne)
  have hpath : (ListVpcRoutesCall d).pager.dataPath = "routes" := rfl
  have hexp : (ListVpcRoutesCall d).pager.nextExp = "routes[*].id | [-1]" := rfl
  rw [markerPagerLoop, hsend]
  simp only [hpath, hexp, hitems, hps, hne, hfresh, Bool.not_false, Bool.and_self, if_true,
    Option.getD_some]

/-- One step of the pager either ends the run with the request just issued,
with an error or with an object holding the array of routes, or goes on with
that request recorded. -/
lemma markerPagerLoop_step (send : Nat → Request → Except Err Json) (d : ResourceData)
    (fuel : Nat) (sent : List Request) (markers : List Json) (acc : List Json) :
    (∃ res, markerPagerLoop send (ListVpcRoutesCall d) (fuel + 1) sent markers acc
        = ⟨sent ++ [pageRequest (ListVpcRoutesCall d) markers.head?], some res⟩ ∧
      ∀ body, res = Except.ok body → ∃ items, body = Json.obj [("routes", Json.arr items)]) ∨
    (∃ markers2 acc2, markerPagerLoop send (ListVpcRoutesCall d) (fuel + 1) sent markers acc
        = markerPagerLoop send (ListVpcRoutesCall d) fuel
            (sent ++ [pageRequest (ListVpcRoutesCall d) markers.head?]) markers2 acc2) := by
  have hpath : (ListVpcRoutesCall d).pager.dataPath = "routes" := rfl
  cases hsend : send sent.length (pageRequest (ListVpcRoutesCall d) markers.head?) with
  | error err =>
    left
    refine ⟨Except.error err, ?_, ?_⟩
    · rw [markerPagerLoop, hsend]
    · intro body h
      cases h
  | ok page =>
    cases hitems : pageItems "routes" page with
    | none =>
      left
      exact ⟨_, markerPagerLoop_malformed send d fuel sent markers acc page hsend hitems,
        by intro body h; cases h⟩
    | some items =>
      by_cases hcont : ∃ c, PathSearch "routes[*].id | [-1]" page = some c ∧
          cursorNonEmpty (some c) = true ∧ cursorSeen c markers = false
      · obtain ⟨c, hps, hne, hfresh⟩ := hcont
        right
        exact ⟨_, _, markerPagerLoop_continue send d fuel sent markers acc page c hsend hps hne
          hfresh⟩
      · left
        refine ⟨_, markerPagerLoop_stop send d fuel sent markers acc page items hsend hitems
          (Or.inr ?_), ?_⟩
        · intro c hps
          by_cases hne : cursorNonEmpty (some c) = true
          · right
            by_contra hseen
            exact hcont ⟨c, hps, hne, by simpa using hseen⟩
          · left
            simpa using hne
        · intro body h
          cases h
          exact ⟨_, rfl⟩

/-- The requests of a run begin with the requests issued before it. -/
lemma markerPagerLoop_requests_prefix (send : Nat → Request → Except Err Json)
    (d : ResourceData) :
    ∀ (fuel : Nat) (sent : List Request) (markers : List Json) (acc : List Json),
      ∃ more, (markerPagerLoop send (ListVpcRoutesCall d) fuel sent markers acc).requests
        = sent ++ more := by
  intro fuel
  induction fuel with
  | zero =>
    intro sent markers acc
    exact ⟨[], by simp [markerPagerLoop]⟩
  | succ fuel ih =>
    intro sent markers acc
    rcases markerPagerLoop_step send d fuel sent markers acc with ⟨res, h, _⟩ | ⟨m2, a2, h⟩
    · exact ⟨[pageRequest (ListVpcRoutesCall d) markers.head?], by rw [h]⟩
    · obtain ⟨more, hmore⟩ :=
        ih (sent ++ [pageRequest (ListVpcRoutesCall d) markers.head?]) m2 a2
      exact ⟨pageRequest (ListVpcRoutesCall d) markers.head? :: more, by
        rw [h, hmore, List.append_assoc]; rfl⟩

/-- A run that ends with a body ends with an object holding an array of routes. -/
lemma markerPagerLoop_ok_body (send : Nat → Request → Except Err Json) (d : ResourceData) :
    ∀ (fuel : Nat) (sent : List Request) (markers : List Json) (acc : List Json) (body : Json),
      (markerPagerLoop send (ListVpcRoutesCall d) fuel sent markers acc).result
        = some (Except.ok body) →
      ∃ items, body = Json.obj [("routes", Json.arr items)] := by
  intro fuel
  induction fuel with
  | zero =>
    intro sent markers acc body h
    simp [markerPagerLoop] at h
  | succ fuel ih =>
    intro sent markers acc body h
    rcases markerPagerLoop_step send d fuel sent markers acc with ⟨res, hrun, hres⟩ | ⟨m2, a2, hrun⟩
    · rw [hrun] at h
      simp only [Option.some.injEq] at h
      exact hres body h
    · rw [hrun] at h
      exact ih _ m2 a2 body h

/-- A run in which a request is answered by a page without an array of routes
ends with the error of a malformed response. -/
lemma markerPagerLoop_malformed_page (send : Nat → Request → Except Err Json)
    (d : ResourceData) :
    ∀ (fuel : Nat) (sent : List Request) (markers : List Json) (acc : List Json)
      (j : Nat) (r : Request) (page : Json),
      sent.length ≤ j →
      (markerPagerLoop send (ListVpcRoutesCall d) fuel sent markers acc).requests[j]? = some r →
      send j r = Except.ok page → pageItems "routes" page = none →
      (markerPagerLoop send (ListVpcRoutesCall d) fuel sent markers acc).result
        = some (Except.error (Err.text "malformed response")) := by
  intro fuel
  induction fuel with
  | zero =>
    intro sent markers acc j r page hj hr _ _
    simp only [markerPagerLoop] at hr
    rw [List.getElem?_eq_none hj] at hr
    cases hr
  | succ fuel ih =>
    intro sent markers acc j r page hj hr hsend hitems
    rcases Nat.eq_or_lt_of_le hj with heq | hlt
    · subst heq
      obtain ⟨more, hmore⟩ := markerPagerLoop_requests_prefix send d (fuel + 1) sent markers acc
      have hreq : r = pageRequest (ListVpcRoutesCall d) markers.head? := by
        rcases markerPagerLoop_step send d fuel sent markers acc with
          ⟨res, hrun, _⟩ | ⟨m2, a2, hrun⟩
        · rw [hrun] at hr
          simpa using hr.symm
        · obtain ⟨more2, hmore2⟩ := markerPagerLoop_requests_prefix send d fuel
            (sent ++ [pageRequest (ListVpcRoutesCall d) markers.head?]) m2 a2
          rw [hrun, hmore2, List.append_assoc,
            List.getElem?_append_right (Nat.le_refl _)] at hr
          simpa using hr.symm
      subst hreq
      rw [markerPagerLoop_malformed send d fuel sent markers acc page hsend hitems]
    · rcases markerPagerLoop_step send d fuel sent markers acc with
        ⟨res, hrun, _⟩ | ⟨m2, a2, hrun⟩
      · rw [hrun] at hr
        rw [List.getElem?_eq_none (by simp; omega)] at hr
        cases hr
      · rw [hrun] at hr ⊢
        exact ih _ m2 a2 j r page (by simp; omega) hr hsend hitems

/-- The pager on a sequence of pages of which all but the last yield a
non-empty cursor, these cursors differing from one another and from the
cursors seen before, and the last has an array of routes and no cursor. -/
lemma markerPagerLoop_pages (send : Nat → Request → Except Err Json) (d : ResourceData)
    (last : Json) (lastItems : List Json)
    (hlastItems : pageItems "routes" last = some lastItems)
    (hlastCursor : cursorNonEmpty (PathSearch "routes[*].id | [-1]" last) = false) :
    ∀ (front : List (Json × List Json × Json)) (fuel : Nat) (sent : List Request)
      (markers : List Json) (acc : List Json),
      (∀ t ∈ front, pageItems "routes" t.1 = some t.2.1 ∧
        PathSearch "routes[*].id | [-1]" t.1 = some t.2.2 ∧
        cursorNonEmpty (some t.2.2) = true) →
      (front.map (fun t => t.2.2)).Pairwise (fun a b => a.same b = false) →
      (∀ t ∈ front, cursorSeen t.2.2 markers = false) →
      (∀ (j : Nat) (r : Request) (page : Json),
        (pageRequest (ListVpcRoutesCall d) markers.head? ::
          front.map (fun t => pageRequest (ListVpcRoutesCall d) (some t.2.2)))[j]?
            = some r →
        (front.map (fun t => t.1) ++ [last])[j]? = some page →
        send (sent.length + j) r = Except.ok page) →
      front.length + 1 ≤ fuel →
      markerPagerLoop send (ListVpcRoutesCall d) fuel sent markers acc
        = ⟨sent ++ pageRequest (ListVpcRoutesCall d) markers.head? ::
              front.map (fun t => pageRequest (ListVpcRoutesCall d) (some t.2.2)),
            some (Except.ok (Json.obj [("routes",
              Json.arr (acc ++ (front.map (fun t => t.2.1)).flatten ++ lastItems))]))⟩ := by
  intro front
  induction front with
  | nil =>
    intro fuel sent markers acc _ _ _ hsend hfuel
    obtain ⟨fuel, rfl⟩ : ∃ f, fuel = f + 1 := ⟨fuel - 1, by simp at hfuel; omega⟩
    have h0 := hsend 0 (pageRequest (ListVpcRoutesCall d) markers.head?) last rfl (by simp)
    rw [markerPagerLoop_stop send d fuel sent markers acc last lastItems h0 hlastItems
      (Or.inr (by
        intro c hc
        left
        rw [hc] at hlastCursor
        exact hlastCursor))]
    simp
  | cons t front ih =>
    intro fuel sent markers acc hfront hdistinct hfresh hsend hfuel
    obtain ⟨fuel, rfl⟩ : ∃ f, fuel = f + 1 := ⟨fuel - 1, by simp at hfuel; omega⟩
    obtain ⟨hitems, hps, hne⟩ := hfront t (by simp)
    have h0 := hsend 0 (pageRequest (ListVpcRoutesCall d) markers.head?) t.1 rfl (by simp)
    rw [markerPagerLoop_continue send d fuel sent markers acc t.1 t.2.2 h0 hps hne
      (hfresh t (by simp)), hitems]
    simp only [Option.getD_some]
    simp only [List.map_cons, List.pairwise_cons] at hdistinct
    rw [ih fuel (sent ++ [pageRequest (ListVpcRoutesCall d) markers.head?])
      (t.2.2 :: markers) (acc ++ t.2.1)]
    · simp
    · intro t2 ht2
      exact hfront t2 (by simp [ht2])
    · exact hdistinct.2
    · intro t2 ht2
      have hdiff : t.2.2.same t2.2.2 = false :=
        hdistinct.1 t2.2.2 (List.mem_map.mpr ⟨t2, ht2, rfl⟩)
      have hold := hfresh t2 (by simp [ht2])
      simp only [cursorSeen, List.any_cons] at hold ⊢
      simp [hdiff, hold]
    · intro j r page hr hpage
      have := hsend (j + 1) r page (by simpa using hr) (by simpa using hpage)
      simpa [Nat.add_assoc, Nat.add_comm 1 j] using this
    · simp at hfuel ⊢
      omega

/-- The pages run from the start, with the requests written out. -/
lemma markerPager_pages (send : Nat → Request → Except Err Json) (d : ResourceData)
    (front : List (Json × List Json × Json)) (last : Json) (lastItems : List Json)
    (fuel : Nat)
    (hfront : ∀ t ∈ front, pageItems "routes" t.1 = some t.2.1 ∧
      PathSearch "routes[*].id | [-1]" t.1 = some t.2.2 ∧
      cursorNonEmpty (some t.2.2) = true)
    (hdistinct : (front.map (fun t => t.2.2)).Pairwise (fun a b => a.same b = false))
    (hlastItems : pageItems "routes" last = some lastItems)
    (hlastCursor : cursorNonEmpty (PathSearch "routes[*].id | [-1]" last) = false)
    (hsend : ∀ (j : Nat) (r : Request) (page : Json),
      ((⟨"GET", "/v2.0/vpc/routes", (ListVpcRoutesCall d).query⟩ : Request) ::
        front.map (fun t => ⟨"GET", "/v2.0/vpc/routes",
          (ListVpcRoutesCall d).query ++ [("marker", t.2.2)]⟩))[j]? = some r →
      (front.map (fun t => t.1) ++ [last])[j]? = some page →
      send j r = Except.ok page)
    (hfuel : front.length + 1 ≤ fuel) :
    markerPager send (ListVpcRoutesCall d) fuel
      = ⟨(⟨"GET", "/v2.0/vpc/routes", (ListVpcRoutesCall d).query⟩ : Request) ::
          front.map (fun t => ⟨"GET", "/v2.0/vpc/routes",
            (ListVpcRoutesCall d).query ++ [("marker", t.2.2)]⟩),
        some (Except.ok (Json.obj [("routes",
          Json.arr ((front.map (fun t => t.2.1)).flatten ++ lastItems))]))⟩ := by
  have h := markerPagerLoop_pages send d last lastItems hlastItems hlastCursor front fuel
    [] [] [] hfront hdistinct (by intro t _; rfl)
    (by
      intro j r page hr hpage
      simp only [List.head?_nil, pageRequest_none, pageRequest_marker] at hr
      simpa using hsend j r page hr hpage)
    hfuel
  simpa [markerPager, pageRequest_none, pageRequest_marker] using h

/-- The pages run from the start, for pages that end with a route with a
non-empty string id. -/
lemma markerPager_pages_last_id (send : Nat → Request → Except Err Json) (d : ResourceData)
    (front : List (Json × List Json × String)) (last : Json) (lastItems : List Json)
    (fuel : Nat)
    (hfront : ∀ t ∈ front, pageItems "routes" t.1 = some t.2.1 ∧ t.2.2 ≠ "" ∧
      ∃ lastItem, t.2.1.getLast? = some lastItem ∧
        Get (some lastItem) "id" = some (Json.str t.2.2))
    (hnodup : (front.map (fun t => t.2.2)).Nodup)
    (hlastItems : pageItems "routes" last = some lastItems)
    (hlastCursor : cursorNonEmpty (PathSearch "routes[*].id | [-1]" last) = false)
    (hsend : ∀ (j : Nat) (r : Request) (page : Json),
      ((⟨"GET", "/v2.0/vpc/routes", (ListVpcRoutesCall d).query⟩ : Request) ::
        front.map (fun t => ⟨"GET", "/v2.0/vpc/routes",
          (ListVpcRoutesCall d).query ++ [("marker", Json.str t.2.2)]⟩))[j]? = some r →
      (front.map (fun t => t.1) ++ [last])[j]? = some page →
      send j r = Except.ok page)
    (hfuel : front.length + 1 ≤ fuel) :
    markerPager send (ListVpcRoutesCall d) fuel
      = ⟨(⟨"GET", "/v2.0/vpc/routes", (ListVpcRoutesCall d).query⟩ : Request) ::
          front.map (fun t => ⟨"GET", "/v2.0/vpc/routes",
            (ListVpcRoutesCall d).query ++ [("marker", Json.str t.2.2)]⟩),
        some (Except.ok (Json.obj [("routes",
          Json.arr ((front.map (fun t => t.2.1)).flatten ++ lastItems))]))⟩ := by
  have h := markerPager_pages send d (front.map (fun t => (t.1, t.2.1, Json.str t.2.2)))
    last lastItems fuel
    (by
      intro t ht
      obtain ⟨t0, ht0, rfl⟩ := List.mem_map.mp ht
      obtain ⟨hitems, hid, lastItem, hlast, hget⟩ := hfront t0 ht0
      exact ⟨hitems, PathSearch_last_id t0.1 t0.2.1 lastItem t0.2.2 hitems hlast hget,
        by simp [cursorNonEmpty, hid]⟩)
    (by
      simp only [List.map_map]
      rw [show ((fun t : Json × List Json × Json => t.2.2) ∘
          (fun t : Json × List Json × String => (t.1, t.2.1, Json.str t.2.2)))
          = Json.str ∘ (fun t : Json × List Json × String => t.2.2) from rfl,
        ← List.map_map, List.pairwise_map]
      exact hnodup.imp (by
        intro a b hab
        simp [Json.same, hab]))
    hlastItems hlastCursor
    (by
      intro j r page hr hpage
      exact hsend j r page (by simpa [List.map_map, Function.comp_def] using hr)
        (by simpa [List.map_map, Function.comp_def] using hpage))
    (by simpa using hfuel)
  simpa [List.map_map, Function.comp_def] using h

/-- C6, as stated, fails in three ways.  In its two-page scenario the second
page, with the routes `d` and `e`, yields the cursor `e`, so that a third
request is issued with `marker=e` and the pagination has not finished after
two requests.  Of the three pages `[a]`, `[a]`, `[]` only two are requested,
the cursor `a` being repeated.  And after the page `[a]` a last page without a
`routes` field, which yields no cursor, gives an error and no concatenation. -/
theorem markerPager_two_pages_three_requests :
    ((markerPager (scriptedServer [pageOfIds ["a", "b", "c"], pageOfIds ["d", "e"]])
        (ListVpcRoutesCall sampleData) 10).requests
        = [⟨"GET", "/v2.0/vpc/routes", [("vpc_id", Json.str "v1")]⟩,
            ⟨"GET", "/v2.0/vpc/routes", [("vpc_id", Json.str "v1"), ("marker", Json.str "c")]⟩,
            ⟨"GET", "/v2.0/vpc/routes", [("vpc_id", Json.str "v1"), ("marker", Json.str "e")]⟩] ∧
      (markerPager (scriptedServer [pageOfIds ["a", "b", "c"], pageOfIds ["d", "e"]])
        (ListVpcRoutesCall sampleData) 10).requests.length ≠ 2 ∧
      (markerPager (scriptedServer [pageOfIds ["a", "b", "c"], pageOfIds ["d", "e"]])
        (ListVpcRoutesCall sampleData) 2).result = none) ∧
    ((markerPager (scriptedServer [pageOfIds ["a"], pageOfIds ["a"], pageOfIds []])
        (ListVpcRoutesCall sampleData) 10).requests
        = [⟨"GET", "/v2.0/vpc/routes", [("vpc_id", Json.str "v1")]⟩,
            ⟨"GET", "/v2.0/vpc/routes", [("vpc_id", Json.str "v1"), ("marker", Json.str "a")]⟩] ∧
      (markerPager (scriptedServer [pageOfIds ["a"], pageOfIds ["a"], pageOfIds []])
        (ListVpcRoutesCall sampleData) 10).requests.length ≠ 3) ∧
    (cursorNonEmpty (PathSearch "routes[*].id | [-1]" (Json.obj [])) = false ∧
      (markerPager (scriptedServer [pageOfIds ["a"], Json.obj []])
        (ListVpcRoutesCall sampleData) 10).result
        = some (Except.error (Err.text "malformed response"))) :=
  ⟨⟨rfl, by decide, rfl⟩, ⟨rfl, by decide⟩, ⟨rfl, rfl⟩⟩

/-- C6, amended: for a sequence of `k >= 1` pages, each with an array of
routes, of which every page but the last has a non-empty last id, these ids
differing from one another, and the last yields no cursor, the pager issues
exactly `k` requests, the first with the filter alone and request `j+1` with
the filter and `marker` bound to the last id of page `j`, and its result holds
the arrays of the pages, concatenated in order.  This is stated for the cursor
that the expression yields, and again for pages whose last route has a
non-empty string id.  For one page the result is the array of that page, after
one request.  For the pages `[a,b,c]` and `[d,e]` the second page yields the
cursor `e`: a third request carries `marker=e`, and when it is answered by a
page whose array of routes is empty the result is `[a,b,c,d,e]` after exactly
three requests. -/
theorem markerPager_concatenates_pages (send : Nat → Request → Except Err Json)
    (d : ResourceData) :
    (∀ (front : List (Json × List Json × Json)) (last : Json) (lastItems : List Json)
      (fuel : Nat),
      (∀ t ∈ front, pageItems "routes" t.1 = some t.2.1 ∧
        PathSearch "routes[*].id | [-1]" t.1 = some t.2.2 ∧
        cursorNonEmpty (some t.2.2) = true) →
      (front.map (fun t => t.2.2)).Pairwise (fun a b => a.same b = false) →
      pageItems "routes" last = some lastItems →
      cursorNonEmpty (PathSearch "routes[*].id | [-1]" last) = false →
      (∀ (j : Nat) (r : Request) (page : Json),
        ((⟨"GET", "/v2.0/vpc/routes", (ListVpcRoutesCall d).query⟩ : Request) ::
          front.map (fun t => ⟨"GET", "/v2.0/vpc/routes",
            (ListVpcRoutesCall d).query ++ [("marker", t.2.2)]⟩))[j]? = some r →
        (front.map (fun t => t.1) ++ [last])[j]? = some page →
        send j r = Except.ok page) →
      front.length + 1 ≤ fuel →
      markerPager send (ListVpcRoutesCall d) fuel
          = ⟨(⟨"GET", "/v2.0/vpc/routes", (ListVpcRoutesCall d).query⟩ : Request) ::
              front.map (fun t => ⟨"GET", "/v2.0/vpc/routes",
                (ListVpcRoutesCall d).query ++ [("marker", t.2.2)]⟩),
            some (Except.ok (Json.obj [("routes",
              Json.arr ((front.map (fun t => t.2.1)).flatten ++ lastItems))]))⟩ ∧
        (markerPager send (ListVpcRoutesCall d) fuel).requests.length = front.length + 1) ∧
    (∀ (front : List (Json × List Json × String)) (last : Json) (lastItems : List Json)
      (fuel : Nat),
      (∀ t ∈ front, pageItems "routes" t.1 = some t.2.1 ∧ t.2.2 ≠ "" ∧
        ∃ lastItem, t.2.1.getLast? = some lastItem ∧
          Get (some lastItem) "id" = some (Json.str t.2.2)) →
      (front.map (fun t => t.2.2)).Nodup →
      pageItems "routes" last = some lastItems →
      cursorNonEmpty (PathSearch "routes[*].id | [-1]" last) = false →
      (∀ (j : Nat) (r : Request) (page : Json),
        ((⟨"GET", "/v2.0/vpc/routes", (ListVpcRoutesCall d).query⟩ : Request) ::
          front.map (fun t => ⟨"GET", "/v2.0/vpc/routes",
            (ListVpcRoutesCall d).query ++ [("marker", Json.str t.2.2)]⟩))[j]? = some r →
        (front.map (fun t => t.1) ++ [last])[j]? = some page →
        send j r = Except.ok page) →
      front.length + 1 ≤ fuel →
      markerPager send (ListVpcRoutesCall d) fuel
          = ⟨(⟨"GET", "/v2.0/vpc/routes", (ListVpcRoutesCall d).query⟩ : Request) ::
              front.map (fun t => ⟨"GET", "/v2.0/vpc/routes",
                (ListVpcRoutesCall d).query ++ [("marker", Json.str t.2.2)]⟩),
            some (Except.ok (Json.obj [("routes",
              Json.arr ((front.map (fun t => t.2.1)).flatten ++ lastItems))]))⟩ ∧
        (markerPager send (ListVpcRoutesCall d) fuel).requests.length = front.length + 1) ∧
    (∀ (page : Json) (items : List Json) (fuel : Nat),
      send 0 ⟨"GET", "/v2.0/vpc/routes", (ListVpcRoutesCall d).query⟩ = Except.ok page →
      pageItems "routes" page = some items →
      cursorNonEmpty (PathSearch "routes[*].id | [-1]" page) = false →
      1 ≤ fuel →
      markerPager send (ListVpcRoutesCall d) fuel
        = ⟨[⟨"GET", "/v2.0/vpc/routes", (ListVpcRoutesCall d).query⟩],
            some (Except.ok (Json.obj [("routes", Json.arr items)]))⟩) ∧
    (∀ fuel : Nat, 3 ≤ fuel →
      markerPager (scriptedServer [pageOfIds ["a", "b", "c"], pageOfIds ["d", "e"]])
          (ListVpcRoutesCall d) fuel
        = ⟨[⟨"GET", "/v2.0/vpc/routes", (ListVpcRoutesCall d).query⟩,
              ⟨"GET", "/v2.0/vpc/routes",
                (ListVpcRoutesCall d).query ++ [("marker", Json.str "c")]⟩,
              ⟨"GET", "/v2.0/vpc/routes",
                (ListVpcRoutesCall d).query ++ [("marker", Json.str "e")]⟩],
            some (Except.ok (Json.obj [("routes", Json.arr [routeWithId "a", routeWithId "b",
              routeWithId "c", routeWithId "d", routeWithId "e"])]))⟩) := by
  refine ⟨?_, ?_, ?_, ?_⟩
  · intro front last lastItems fuel hfront hdistinct hlastItems hlastCursor hsend hfuel
    have h := markerPager_pages send d front last lastItems fuel hfront hdistinct hlastItems
      hlastCursor hsend hfuel
    exact ⟨h, by rw [h]; simp⟩
  · intro front last lastItems fuel hfront hnodup hlastItems hlastCursor hsend hfuel
    have h := markerPager_pages_last_id send d front last lastItems fuel hfront hnodup
      hlastItems hlastCursor hsend hfuel
    exact ⟨h, by rw [h]; simp⟩
  · intro page items fuel hsend hitems hcursor hfuel
    have h := markerPager_pages send d [] page items fuel (by simp) (by simp) hitems hcursor
      (by
        intro j r q hr hq
        match j, hr, hq with
        | 0, hr, hq =>
          simp at hr hq
          subst hr
          subst hq
          exact hsend
        | j + 1, hr, _ => simp at hr)
      (by simpa using hfuel)
    simpa using h
  · intro fuel hfuel
    have h := markerPager_pages_last_id
      (scriptedServer [pageOfIds ["a", "b", "c"], pageOfIds ["d", "e"]]) d
      [(pageOfIds ["a", "b", "c"], [routeWithId "a", routeWithId "b", routeWithId "c"], "c"),
        (pageOfIds ["d", "e"], [routeWithId "d", routeWithId "e"], "e")]
      (pageOfIds []) [] fuel
      (by
        intro t ht
        simp only [List.mem_cons, List.mem_singleton, List.not_mem_nil, or_false] at ht
        rcases ht with h | h <;> subst h
        · exact ⟨rfl, by decide, routeWithId "c", rfl, rfl⟩
        · exact ⟨rfl, by decide, routeWithId "e", rfl, rfl⟩)
      (by decide) rfl rfl
      (by
        intro j r page hr hpage
        match j, hr, hpage with
        | 0, _, hpage => simp at hpage; subst hpage; rfl
        | 1, _, hpage => simp at hpage; subst hpage; rfl
        | 2, _, hpage => simp at hpage; subst hpage; rfl
        | j + 3, _, hpage => simp at hpage)
      (by simpa using hfuel)
    simpa using h

/-- C6, amended, at a concrete input: the pages `[a,b,c]`, `[d,e]` and a page
with an empty array of routes, for a filter with `vpc_id=v1`. -/
theorem markerPager_concatenates_pages_witness :
    markerPager (scriptedServer [pageOfIds ["a", "b", "c"], pageOfIds ["d", "e"]])
        (ListVpcRoutesCall sampleData) 3
      = ⟨[⟨"GET", "/v2.0/vpc/routes", [("vpc_id", Json.str "v1")]⟩,
            ⟨"GET", "/v2.0/vpc/routes", [("vpc_id", Json.str "v1"), ("marker", Json.str "c")]⟩,
            ⟨"GET", "/v2.0/vpc/routes", [("vpc_id", Json.str "v1"), ("marker", Json.str "e")]⟩],
          some (Except.ok (Json.obj [("routes", Json.arr [
            Json.obj [("id", Json.str "a"), ("type", Json.str "peering")],
            Json.obj [("id", Json.str "b"), ("type", Json.str "peering")],
            Json.obj [("id", Json.str "c"), ("type", Json.str "peering")],
            Json.obj [("id", Json.str "d"), ("type", Json.str "peering")],
            Json.obj [("id", Json.str "e"), ("type", Json.str "peering")]])]))⟩ :=
  (markerPager_concatenates_pages
    (scriptedServer [pageOfIds ["a", "b", "c"], pageOfIds ["d", "e"]]) sampleData).2.2.2
    3 (Nat.le_refl 3)

/-- C7: when the page requested with the marker `m` has a last route whose id
is again `m`, the pagination ends with that request and the page is not
requested again; in general the pagination ends with the request whose page
has an array of routes and no new cursor, be the cursor empty, absent or one
seen before.  Against a server whose every page ends with the id `m`, two
requests are issued however many are allotted. -/
theorem markerPager_stops_on_stale_cursor (send : Nat → Request → Except Err Json)
    (d : ResourceData) :
    (∀ (fuel : Nat) (sent : List Request) (m : String) (earlier : List Json) (acc : List Json)
      (page : Json) (items : List Json) (lastItem : Json),
      send sent.length ⟨"GET", "/v2.0/vpc/routes",
        (ListVpcRoutesCall d).query ++ [("marker", Json.str m)]⟩ = Except.ok page →
      pageItems "routes" page = some items →
      items.getLast? = some lastItem →
      Get (some lastItem) "id" = some (Json.str m) →
      markerPagerLoop send (ListVpcRoutesCall d) (fuel + 1) sent (Json.str m :: earlier) acc
        = ⟨sent ++ [⟨"GET", "/v2.0/vpc/routes",
              (ListVpcRoutesCall d).query ++ [("marker", Json.str m)]⟩],
            some (Except.ok (Json.obj [("routes", Json.arr (acc ++ items))]))⟩) ∧
    (∀ (fuel : Nat) (sent : List Request) (m : Json) (earlier : List Json) (acc : List Json)
      (page : Json) (items : List Json),
      send sent.length (pageRequest (ListVpcRoutesCall d) (some m)) = Except.ok page →
      pageItems "routes" page = some items →
      PathSearch "routes[*].id | [-1]" page = some m →
      markerPagerLoop send (ListVpcRoutesCall d) (fuel + 1) sent (m :: earlier) acc
        = ⟨sent ++ [pageRequest (ListVpcRoutesCall d) (some m)],
            some (Except.ok (Json.obj [("routes", Json.arr (acc ++ items))]))⟩) ∧
    (∀ (fuel : Nat) (sent : List Request) (markers : List Json) (acc : List Json)
      (page : Json) (items : List Json),
      send sent.length (pageRequest (ListVpcRoutesCall d) markers.head?) = Except.ok page →
      pageItems "routes" page = some items →
      (∀ c, PathSearch "routes[*].id | [-1]" page = some c →
        cursorNonEmpty (some c) = false ∨ cursorSeen c markers = true) →
      markerPagerLoop send (ListVpcRoutesCall d) (fuel + 1) sent markers acc
          = ⟨sent ++ [pageRequest (ListVpcRoutesCall d) markers.head?],
              some (Except.ok (Json.obj [("routes", Json.arr (acc ++ items))]))⟩ ∧
        (markerPagerLoop send (ListVpcRoutesCall d) (fuel + 1) sent markers acc).requests.length
          = sent.length + 1) ∧
    (∀ (m : String) (fuel : Nat), m ≠ "" → 2 ≤ fuel →
      markerPager (staleServer m) (ListVpcRoutesCall d) fuel
        = ⟨[⟨"GET", "/v2.0/vpc/routes", (ListVpcRoutesCall d).query⟩,
              ⟨"GET", "/v2.0/vpc/routes",
                (ListVpcRoutesCall d).query ++ [("marker", Json.str m)]⟩],
            some (Except.ok (Json.obj [("routes",
              Json.arr [routeWithId m, routeWithId m])]))⟩) := by
  have seen : ∀ (m : Json) (earlier : List Json), cursorSeen m (m :: earlier) = true := by
    intro m earlier
    simp [cursorSeen, Json.same_refl]
  have stale : ∀ (srv : Nat → Request → Except Err Json) (fuel : Nat) (sent : List Request)
      (m : Json) (earlier : List Json) (acc : List Json) (page : Json) (items : List Json),
      srv sent.length (pageRequest (ListVpcRoutesCall d) (some m)) = Except.ok page →
      pageItems "routes" page = some items →
      PathSearch "routes[*].id | [-1]" page = some m →
      markerPagerLoop srv (ListVpcRoutesCall d) (fuel + 1) sent (m :: earlier) acc
        = ⟨sent ++ [pageRequest (ListVpcRoutesCall d) (some m)],
            some (Except.ok (Json.obj [("routes", Json.arr (acc ++ items))]))⟩ := by
    intro srv fuel sent m earlier acc page items hsend hitems hps
    exact markerPagerLoop_stop srv d fuel sent (m :: earlier) acc page items hsend hitems
      (Or.inr (by
        intro c hc
        rw [hps] at hc
        cases hc
        exact Or.inr (seen m earlier)))
  refine ⟨?_, stale send, ?_, ?_⟩
  · intro fuel sent m earlier acc page items lastItem hsend hitems hlast hid
    have h := stale send fuel sent (Json.str m) earlier acc page items
      (by rw [pageRequest_marker]; exact hsend) hitems
      (PathSearch_last_id page items lastItem m hitems hlast hid)
    rw [h, pageRequest_marker]
  · intro fuel sent markers acc page items hsend hitems hcursor
    have h := markerPagerLoop_stop send d fuel sent markers acc page items hsend hitems
      (Or.inr hcursor)
    exact ⟨h, by rw [h]; simp⟩
  · intro m fuel hm hfuel
    obtain ⟨fuel, rfl⟩ : ∃ f, fuel = f + 2 := ⟨fuel - 2, by omega⟩
    have hps : PathSearch "routes[*].id | [-1]" (pageOfIds [m]) = some (Json.str m) :=
      PathSearch_last_id (pageOfIds [m]) [routeWithId m] (routeWithId m) m rfl rfl rfl
    have hne : cursorNonEmpty (some (Json.str m)) = true := by
      simp [cursorNonEmpty, hm]
    rw [markerPager, markerPagerLoop_continue (staleServer m) d (fuel + 1) [] [] []
      (pageOfIds [m]) (Json.str m) rfl hps hne rfl]
    rw [stale (staleServer m) fuel _ (Json.str m) [] _ (pageOfIds [m]) [routeWithId m] rfl rfl
      hps]
    simp only [List.head?_nil, pageRequest_none, pageRequest_marker]
    rfl

/-- C7, at a concrete input: the server whose every page ends with the id
`m`, with a hundred requests allotted and a filter with `vpc_id=v1`. -/
theorem markerPager_stops_on_stale_cursor_witness :
    markerPager (staleServer "m") (ListVpcRoutesCall sampleData) 100
      = ⟨[⟨"GET", "/v2.0/vpc/routes", [("vpc_id", Json.str "v1")]⟩,
            ⟨"GET", "/v2.0/vpc/routes", [("vpc_id", Json.str "v1"), ("marker", Json.str "m")]⟩],
          some (Except.ok (Json.obj [("routes", Json.arr [
            Json.obj [("id", Json.str "m"), ("type", Json.str "peering")],
            Json.obj [("id", Json.str "m"), ("type", Json.str "peering")]])]))⟩ :=
  (markerPager_stops_on_stale_cursor (staleServer "m") sampleData).2.2.2 "m" 100
    (by decide) (by decide)

/-! ## Theorems: the read over the pager -/

/-- C5: when the list request of the read is the marker pager run against a
server, and a page that the server returns in that run has no `routes` field
or one that is not an array, the read reports the error of the malformed
response and writes nothing: no id, no `region`, no `routes`.  A body that the
read does flatten has an array under `routes`, so that the read never succeeds
with an empty list of routes for a body of another shape. -/
theorem dataSourceVpcRoutesRead_malformed_page (env : Env) (d : ResourceData)
    (client : ServiceClient) (send : Nat → Request → Except Err Json) (fuel : Nat)
    (hclient : env.newClient "vpc" = Except.ok client)
    (hjoin : (markerPager send (ListVpcRoutesCall d) fuel).result
      = some (env.result client (ListVpcRoutesCall d))) :
    (∀ (j : Nat) (r : Request) (page : Json),
      (markerPager send (ListVpcRoutesCall d) fuel).requests[j]? = some r →
      send j r = Except.ok page →
      (∀ records, Get (some page) "routes" ≠ some (Json.arr records)) →
      dataSourceVpcRoutesRead env d = ([Err.text "malformed response"], d)) ∧
    (∀ body, ListVpcRoutes env d = Except.ok body →
      ∃ records, Get (some body) "routes" = some (Json.arr records)) ∧
    (∀ body, (∀ records, Get (some body) "routes" ≠ some (Json.arr records)) →
      ListVpcRoutes env d ≠ Except.ok body) := by
  have hlist : ListVpcRoutes env d = env.result client (ListVpcRoutesCall d) := by
    simp [ListVpcRoutes, hclient]
  have hbody : ∀ body, ListVpcRoutes env d = Except.ok body →
      ∃ records, Get (some body) "routes" = some (Json.arr records) := by
    intro body hok
    rw [hlist] at hok
    rw [hok] at hjoin
    obtain ⟨items, rfl⟩ := markerPagerLoop_ok_body send d fuel [] [] [] body hjoin
    exact ⟨items, rfl⟩
  refine ⟨?_, hbody, ?_⟩
  · intro j r page hr hsend hshape
    have hres := markerPagerLoop_malformed_page send d fuel [] [] [] j r page (Nat.zero_le _) hr
      hsend (pageItems_none_of_shape page hshape)
    have herr : env.result client (ListVpcRoutesCall d)
        = Except.error (Err.text "malformed response") := by
      have h := hjoin.symm.trans hres
      simpa using h
    simp [dataSourceVpcRoutesRead, hlist, herr, FromErr]
  · intro body hshape hok
    obtain ⟨records, hrec⟩ := hbody body hok
    exact hshape records hrec

/-- C5, at a concrete input: a server whose only page is the empty object. -/
theorem dataSourceVpcRoutesRead_malformed_page_witness :
    dataSourceVpcRoutesRead (sampleEnv (Except.error (Err.text "malformed response")))
        sampleData
      = ([Err.text "malformed response"], sampleData) :=
  (dataSourceVpcRoutesRead_malformed_page
    (sampleEnv (Except.error (Err.text "malformed response"))) sampleData ⟨"vpc"⟩
    (scriptedServer [Json.obj []]) 5 rfl rfl).1 0
    ⟨"GET", "/v2.0/vpc/routes", [("vpc_id", Json.str "v1")]⟩ (Json.obj []) rfl rfl
    (by intro records h; cases h)

end Hcso
